import Mathlib

/-!
Shallow embedding of the emissions-simulation core of `src/app.py`
(tco2e repository) together with proofs about its claims.

Numbers are modelled as real numbers (exact arithmetic); numpy array
operations become explicit `Finset.range` sums; the daily emission series
of a pathway is a function from the 0-based day index to the value the
corresponding numpy array holds at that index.  The one fallible operation
of the simulation core (the Python scalar division
`massa_exposta_kg / residuos_kg_dia` in `calcular_emissoes_aterro`,
line 607, which raises `ZeroDivisionError` on a zero divisor) is also
embedded as an `Option`-valued variant.
-/

namespace Tco2e

noncomputable section

/-! ### Fixed constants of the model (src/app.py lines 463-537) -/

/-- Methane correction factor, line 466. -/
def MCF : ℝ := 1

/-- Methane fraction in biogas, line 467. -/
def F : ℝ := 0.5

/-- Oxidation factor, line 468. -/
def OX : ℝ := 0.1

/-- Recovered methane, line 469. -/
def Ri : ℝ := 0

/-- Annual decay constant, line 472 (also hard-coded as `k_ano = 0.06`
inside `calcular_potencial_metano_aterro`, line 368). -/
def k_ano : ℝ := 0.06

/-- 20-year GWP of methane, line 526. -/
def GWP_CH4_20 : ℝ := 79.7

/-- 20-year GWP of nitrous oxide, line 527. -/
def GWP_N2O_20 : ℝ := 273

/-- 100-year GWP of methane used only by the single-lot financial section,
line 1163 (`GWP_CH4 = 27.9`). -/
def GWP_CH4 : ℝ := 27.9

/-- Total organic carbon fraction (Yang et al. 2017), line 475. -/
def TOC_YANG : ℝ := 0.436

/-- Total nitrogen fraction, line 476. -/
def TN_YANG : ℝ := 14.2 / 1000

/-- Fraction of TOC emitted as CH4-C in vermicomposting, line 477. -/
def CH4_C_FRAC_YANG : ℝ := 0.13 / 100

/-- Fraction of TN emitted as N2O-N in vermicomposting, line 478. -/
def N2O_N_FRAC_YANG : ℝ := 0.92 / 100

/-- Fraction of TOC emitted as CH4-C in thermophilic composting, line 537. -/
def CH4_C_FRAC_THERMO : ℝ := 0.006

/-- Fraction of TN emitted as N2O-N in thermophilic composting, line 538. -/
def N2O_N_FRAC_THERMO : ℝ := 0.0196

/-- Pre-disposal CH4 rate in g per kg per day, lines 511-517:
`2.78 µgC/kg/h * (16/12) * 24h / 1e6`. -/
def CH4_pre_descarte_g_por_kg_dia : ℝ := 2.78 * (16 / 12) * 24 / 1000000

/-- Pre-disposal N2O rate in g per kg per day, lines 519-521:
`(20.26 mgN/kg / 3) * (44/28) / 1000`. -/
def N2O_pre_descarte_g_por_kg_dia : ℝ := 20.26 / 3 * (44 / 28) / 1000

/-! ### Temporal profiles (lines 482-566).

The four 50-entry composting profiles are kept as raw (unnormalized)
lists; the code divides them in place by their own sum
(`PERFIL /= PERFIL.sum()`), which the definitions below reproduce at
every access.  The landfill N2O profiles are dictionaries keyed by the
1-based day offset. -/

/-- Raw CH4 profile for vermicomposting, lines 482-493 (same literal values
as the local copy inside `calcular_emissoes_vermicompostagem_lote`,
lines 404-415). -/
def PERFIL_CH4_VERMI : List ℝ :=
  [0.02, 0.02, 0.02, 0.03, 0.03,
   0.04, 0.04, 0.05, 0.05, 0.06,
   0.07, 0.08, 0.09, 0.10, 0.09,
   0.08, 0.07, 0.06, 0.05, 0.04,
   0.03, 0.02, 0.02, 0.01, 0.01,
   0.01, 0.01, 0.01, 0.01, 0.01,
   0.005, 0.005, 0.005, 0.005, 0.005,
   0.005, 0.005, 0.005, 0.005, 0.005,
   0.002, 0.002, 0.002, 0.002, 0.002,
   0.001, 0.001, 0.001, 0.001, 0.001]

/-- Raw N2O profile for vermicomposting, lines 496-507. -/
def PERFIL_N2O_VERMI : List ℝ :=
  [0.15, 0.10, 0.20, 0.05, 0.03,
   0.03, 0.03, 0.04, 0.05, 0.06,
   0.08, 0.09, 0.10, 0.08, 0.07,
   0.06, 0.05, 0.04, 0.03, 0.02,
   0.01, 0.01, 0.005, 0.005, 0.005,
   0.005, 0.005, 0.005, 0.005, 0.005,
   0.002, 0.002, 0.002, 0.002, 0.002,
   0.001, 0.001, 0.001, 0.001, 0.001,
   0.001, 0.001, 0.001, 0.001, 0.001,
   0.001, 0.001, 0.001, 0.001, 0.001]

/-- Raw CH4 profile for thermophilic composting, lines 540-551 (same
values as the local copy in `calcular_emissoes_compostagem_lote`,
lines 438-449). -/
def PERFIL_CH4_THERMO : List ℝ :=
  [0.01, 0.02, 0.03, 0.05, 0.08,
   0.12, 0.15, 0.18, 0.20, 0.18,
   0.15, 0.12, 0.10, 0.08, 0.06,
   0.05, 0.04, 0.03, 0.02, 0.02,
   0.01, 0.01, 0.01, 0.01, 0.01,
   0.005, 0.005, 0.005, 0.005, 0.005,
   0.002, 0.002, 0.002, 0.002, 0.002,
   0.001, 0.001, 0.001, 0.001, 0.001,
   0.001, 0.001, 0.001, 0.001, 0.001,
   0.001, 0.001, 0.001, 0.001, 0.001]

/-- Raw N2O profile for thermophilic composting, lines 554-565. -/
def PERFIL_N2O_THERMO : List ℝ :=
  [0.10, 0.08, 0.15, 0.05, 0.03,
   0.04, 0.05, 0.07, 0.10, 0.12,
   0.15, 0.18, 0.20, 0.18, 0.15,
   0.12, 0.10, 0.08, 0.06, 0.05,
   0.04, 0.03, 0.02, 0.02, 0.01,
   0.01, 0.01, 0.01, 0.01, 0.01,
   0.005, 0.005, 0.005, 0.005, 0.005,
   0.002, 0.002, 0.002, 0.002, 0.002,
   0.001, 0.001, 0.001, 0.001, 0.001,
   0.001, 0.001, 0.001, 0.001, 0.001]

/-- Landfill N2O release profile, line 534: `{1: 0.10, 2: 0.30, 3: 0.40,
4: 0.15, 5: 0.05}`, indexed by 1-based day offset, 0 elsewhere. -/
def PERFIL_N2O (d : ℕ) : ℝ :=
  if d = 1 then 0.10 else if d = 2 then 0.30 else if d = 3 then 0.40
  else if d = 4 then 0.15 else if d = 5 then 0.05 else 0

/-- Pre-disposal N2O release profile, line 523:
`{1: 0.8623, 2: 0.10, 3: 0.0377}`. -/
def PERFIL_N2O_PRE_DESCARTE (d : ℕ) : ℝ :=
  if d = 1 then 0.8623 else if d = 2 then 0.10 else if d = 3 then 0.0377 else 0

/-! ### Landfill first-order-decay kernel -/

/-- `DOCf` as a function of temperature, `0.0147 * T + 0.28`
(lines 359 and 608). -/
def DOCf_of (T : ℝ) : ℝ := 0.0147 * T + 0.28

/-- Methane generation potential per kg of waste
(lines 362 and 610): `DOC * DOCf * MCF * F * (16/12) * (1-Ri) * (1-OX)`. -/
def potencial_CH4_por_kg (doc T : ℝ) : ℝ :=
  doc * DOCf_of T * MCF * F * (16 / 12) * (1 - Ri) * (1 - OX)

/-- Decay kernel of `calcular_emissoes_aterro`, line 614, for a 1-based
day `t` and decay rate `k` per year (the code instantiates `k = k_ano`):
`exp(-k*(t-1)/365) - exp(-k*t/365)`. -/
def kernel_ch4 (k : ℝ) (t : ℕ) : ℝ :=
  Real.exp (-k * ((t : ℝ) - 1) / 365) - Real.exp (-k * (t : ℝ) / 365)

/-- Decay kernel of `calcular_potencial_metano_aterro`, lines 369-378:
the same expression written through the daily rate `k_dia = k_ano/365`,
followed by the clamp `np.maximum(kernel_ch4, 0)`. -/
def kernel_ch4_lote (t : ℕ) : ℝ :=
  max (Real.exp (-(k_ano / 365) * ((t : ℝ) - 1)) -
       Real.exp (-(k_ano / 365) * (t : ℝ))) 0

/-- Sum of the un-clamped landfill kernel over days `1..N`. -/
def soma_kernel (k : ℝ) (N : ℕ) : ℝ :=
  ∑ t ∈ Finset.range N, kernel_ch4 k (t + 1)

/-- `fracao_total_emitida` of `calcular_potencial_metano_aterro`,
line 387: the sum of the clamped kernel over the simulated days. -/
def fracao_total_emitida (dias : ℕ) : ℝ :=
  ∑ t ∈ Finset.range dias, kernel_ch4_lote (t + 1)

/-! ### Single-lot functions (lines 346-457) -/

/-- `calcular_potencial_metano_aterro(residuos_kg, umidade, temperatura,
dias)`, lines 346-389.  Internal constants: `DOC = 0.15`, and the same
`MCF`, `F`, `OX`, `Ri` values as the globals.  Returns
`(emissoes_CH4, potencial_CH4_total, DOCf, fracao_total_emitida)`.
The `umidade` argument is accepted but never read by the body, exactly
as in the source. -/
def calcular_potencial_metano_aterro (residuos_kg umidade temperatura : ℝ)
    (dias : ℕ) : List ℝ × ℝ × ℝ × ℝ :=
  ((List.range dias).map
      (fun i => residuos_kg * potencial_CH4_por_kg 0.15 temperatura *
        kernel_ch4_lote (i + 1)),
   residuos_kg * potencial_CH4_por_kg 0.15 temperatura,
   DOCf_of temperatura,
   fracao_total_emitida dias)

/-- `calcular_emissoes_vermicompostagem_lote(residuos_kg, umidade, dias)`,
lines 391-423: the per-batch CH4 total `residuos * TOC * 0.0013 * (16/12)
* (1-umidade)` spread over the 50-day profile normalized by its own sum.
Returns `(emissoes_CH4, ch4_total_por_lote)`; `dias` is never read. -/
def calcular_emissoes_vermicompostagem_lote (residuos_kg umidade : ℝ)
    (dias : ℕ) : List ℝ × ℝ :=
  (PERFIL_CH4_VERMI.map
      (fun p =>
        residuos_kg * (TOC_YANG * (0.13 / 100) * (16 / 12) * (1 - umidade)) *
          (p / PERFIL_CH4_VERMI.sum)),
   residuos_kg * (TOC_YANG * (0.13 / 100) * (16 / 12) * (1 - umidade)))

/-- `calcular_emissoes_compostagem_lote(residuos_kg, umidade, dias)`,
lines 425-457, with `CH4_C_FRAC = 0.006`; `dias` is never read. -/
def calcular_emissoes_compostagem_lote (residuos_kg umidade : ℝ)
    (dias : ℕ) : List ℝ × ℝ :=
  (PERFIL_CH4_THERMO.map
      (fun p =>
        residuos_kg * (TOC_YANG * 0.006 * (16 / 12) * (1 - umidade)) *
          (p / PERFIL_CH4_THERMO.sum)),
   residuos_kg * (TOC_YANG * 0.006 * (16 / 12) * (1 - umidade)))

/-! ### Continuous-stream pathway models (lines 587-674) -/

/-- `f_aberto`, line 607: `np.clip((massa/residuos)*(h/24), 0, 1)`.
Over the reals the division is total; the `Option`-valued variant below
records that the Python scalar division raises when `residuos = 0`. -/
def f_aberto (residuos massa h : ℝ) : ℝ :=
  min (max (massa / residuos * (h / 24)) 0) 1

/-- Daily N2O emission rate of the landfill, lines 606 and 619-623:
`E_medio = f_aberto*1.91 + (1-f_aberto)*2.15`, adjusted by the moisture
factor `(1-umidade)/(1-0.55)`, converted by `(44/28)/1e6` and scaled by
the daily waste mass. -/
def emissao_diaria_N2O_aterro (u residuos massa h : ℝ) : ℝ :=
  (f_aberto residuos massa h * 1.91 + (1 - f_aberto residuos massa h) * 2.15) *
    ((1 - u) / (1 - 0.55)) * (44 / 28) / 1000000 * residuos

/-- Decay-driven landfill CH4 on 0-based day `m`, lines 611-617: the
convolution of the constant daily-injection series with the decay kernel,
which on day `m` equals the daily potential times the kernel summed over
offsets `1..m+1`. -/
def ch4_aterro_fod (T doc residuos : ℝ) (m : ℕ) : ℝ :=
  residuos * potencial_CH4_por_kg doc T *
    ∑ j ∈ Finset.range (m + 1), kernel_ch4 k_ano (j + 1)

/-- Total landfill CH4 on day `m`, line 631: decay emissions plus the
constant pre-disposal term `residuos * ch4_ajustado / 1000` (line 590,
with `O2_concentracao = 21` so the adjustment factor is 1). -/
def total_ch4_aterro (u T doc residuos massa h : ℝ) (m : ℕ) : ℝ :=
  ch4_aterro_fod T doc residuos m +
    residuos * CH4_pre_descarte_g_por_kg_dia / 1000

/-- Total landfill N2O on day `m`, lines 625-632: convolution of the
constant daily N2O rate with the 5-day profile, plus the pre-disposal
N2O spread over its 3-day profile (lines 593-599). -/
def total_n2o_aterro (u T doc residuos massa h : ℝ) (m : ℕ) : ℝ :=
  (∑ j ∈ Finset.range (m + 1),
      emissao_diaria_N2O_aterro u residuos massa h * PERFIL_N2O (j + 1)) +
  ∑ j ∈ Finset.range (m + 1),
      residuos * N2O_pre_descarte_g_por_kg_dia *
        PERFIL_N2O_PRE_DESCARTE (j + 1) / 1000

/-- `calcular_emissoes_aterro(params, dias, residuos, massa, h)`,
lines 603-634, as a pair of day-indexed series (`dias` fixes only the
array length, which summation sites make explicit). -/
def calcular_emissoes_aterro (u T doc : ℝ) (dias : ℕ) (residuos massa h : ℝ) :
    (ℕ → ℝ) × (ℕ → ℝ) :=
  (fun m => total_ch4_aterro u T doc residuos massa h m,
   fun m => total_n2o_aterro u T doc residuos massa h m)

/-- The same function with its one fallible operation made explicit: the
Python scalar division `massa_exposta_kg / residuos_kg_dia` on line 607
raises `ZeroDivisionError` when `residuos_kg_dia = 0` (the
`np.seterr(divide='ignore')` on line 24 silences only numpy operations,
not scalar division). -/
def calcular_emissoes_aterro_checked (u T doc : ℝ) (dias : ℕ)
    (residuos massa h : ℝ) : Option ((ℕ → ℝ) × (ℕ → ℝ)) :=
  if residuos = 0 then none
  else some (calcular_emissoes_aterro u T doc dias residuos massa h)

/-- Continuous-stream vermicomposting CH4 on day `m`, lines 641-652:
every day a batch enters and follows the 50-day normalized profile, so
day `m` collects the partial profile mass up to offset `m`. -/
def ch4_vermi (u residuos : ℝ) (m : ℕ) : ℝ :=
  residuos * (TOC_YANG * CH4_C_FRAC_YANG * (16 / 12) * (1 - u)) *
    ∑ c ∈ Finset.range (m + 1), PERFIL_CH4_VERMI.getD c 0 / PERFIL_CH4_VERMI.sum

/-- Continuous-stream vermicomposting N2O on day `m`, lines 642-652. -/
def n2o_vermi (u residuos : ℝ) (m : ℕ) : ℝ :=
  residuos * (TN_YANG * N2O_N_FRAC_YANG * (44 / 28) * (1 - u)) *
    ∑ c ∈ Finset.range (m + 1), PERFIL_N2O_VERMI.getD c 0 / PERFIL_N2O_VERMI.sum

/-- `calcular_emissoes_vermi(params, dias, residuos)`, lines 636-654. -/
def calcular_emissoes_vermi (u T doc : ℝ) (dias : ℕ) (residuos : ℝ) :
    (ℕ → ℝ) × (ℕ → ℝ) :=
  (fun m => ch4_vermi u residuos m, fun m => n2o_vermi u residuos m)

/-- Continuous-stream thermophilic-composting CH4 on day `m`,
lines 661-672. -/
def ch4_compost (u residuos : ℝ) (m : ℕ) : ℝ :=
  residuos * (TOC_YANG * CH4_C_FRAC_THERMO * (16 / 12) * (1 - u)) *
    ∑ c ∈ Finset.range (m + 1),
      PERFIL_CH4_THERMO.getD c 0 / PERFIL_CH4_THERMO.sum

/-- Continuous-stream thermophilic-composting N2O on day `m`. -/
def n2o_compost (u residuos : ℝ) (m : ℕ) : ℝ :=
  residuos * (TN_YANG * N2O_N_FRAC_THERMO * (44 / 28) * (1 - u)) *
    ∑ c ∈ Finset.range (m + 1),
      PERFIL_N2O_THERMO.getD c 0 / PERFIL_N2O_THERMO.sum

/-- `calcular_emissoes_compostagem(params, dias, residuos,
dias_compostagem)`, lines 656-674; `dias_compostagem` is never read
(the loops use the profile length). -/
def calcular_emissoes_compostagem (u T doc : ℝ) (dias : ℕ) (residuos : ℝ)
    (dias_compostagem : ℕ) : (ℕ → ℝ) × (ℕ → ℝ) :=
  (fun m => ch4_compost u residuos m, fun m => n2o_compost u residuos m)

/-- `executar_simulacao_completa(parametros, dias, residuos, massa, h)`,
lines 676-686: landfill minus vermicomposting, both converted per day by
`(ch4*GWP_CH4_20 + n2o*GWP_N2O_20)/1000` and summed over the horizon. -/
def executar_simulacao_completa (u T doc : ℝ) (dias : ℕ)
    (residuos massa h : ℝ) : ℝ :=
  (∑ m ∈ Finset.range dias,
      (total_ch4_aterro u T doc residuos massa h m * GWP_CH4_20 +
       total_n2o_aterro u T doc residuos massa h m * GWP_N2O_20) / 1000) -
  ∑ m ∈ Finset.range dias,
      (ch4_vermi u residuos m * GWP_CH4_20 +
       n2o_vermi u residuos m * GWP_N2O_20) / 1000

/-- `executar_simulacao_unfccc(parametros, dias, residuos, massa, h)`,
lines 688-698: landfill minus thermophilic composting. -/
def executar_simulacao_unfccc (u T doc : ℝ) (dias : ℕ)
    (residuos massa h : ℝ) : ℝ :=
  (∑ m ∈ Finset.range dias,
      (total_ch4_aterro u T doc residuos massa h m * GWP_CH4_20 +
       total_n2o_aterro u T doc residuos massa h m * GWP_N2O_20) / 1000) -
  ∑ m ∈ Finset.range dias,
      (ch4_compost u residuos m * GWP_CH4_20 +
       n2o_compost u residuos m * GWP_N2O_20) / 1000

/-! ### Single-lot comparison pipeline (tab 1, lines 791-1169) -/

/-- Accumulated landfill CH4 of the single-lot analysis after `dias` days
(`df['Aterro_Acumulado'].iloc[-1]`, line 827). -/
def aterro_lote_acum (residuos u T : ℝ) (dias : ℕ) : ℝ :=
  ((calcular_potencial_metano_aterro residuos u T dias).1).sum

/-- Accumulated vermicomposting CH4 of the single-lot analysis: the lote
series is computed with `dias_vermi = min(50, dias)` and zero-padded to
the horizon (lines 801-806), so the accumulated value is the sum of the
first `min 50 dias` entries. -/
def vermi_lote_acum (residuos u : ℝ) (dias : ℕ) : ℝ :=
  ∑ c ∈ Finset.range (min 50 dias),
    ((calcular_emissoes_vermicompostagem_lote residuos u (min 50 dias)).1).getD c 0

/-- `total_evitado_vermi_tco2eq` of the single-lot financial section,
lines 1165-1166: the avoided CH4 mass converted with `GWP_CH4 = 27.9`
and divided by 1000. -/
def total_evitado_vermi_tco2eq (residuos u T : ℝ) (dias : ℕ) : ℝ :=
  (aterro_lote_acum residuos u T dias - vermi_lote_acum residuos u dias) *
    GWP_CH4 / 1000

/-- Stated-claim version of the single-lot avoided total (claim C3 words):
each pathway's series converted day by day as `(ch4*79.7 + n2o*273)/1000`
(the lot analysis carries no N2O series, so its N2O term is zero) and the
baseline sum minus the alternative sum.  This definition follows the
claim's wording, for comparison against `total_evitado_vermi_tco2eq`. -/
def avoided_lote_per_claim (residuos u T : ℝ) (dias : ℕ) : ℝ :=
  (∑ t ∈ Finset.range dias,
      (((calcular_potencial_metano_aterro residuos u T dias).1).getD t 0 * 79.7 +
        0 * 273) / 1000) -
  ∑ t ∈ Finset.range dias,
      ((if t < min 50 dias then
          ((calcular_emissoes_vermicompostagem_lote residuos u (min 50 dias)).1).getD t 0
        else 0) * 79.7 + 0 * 273) / 1000

/-! ### Monte Carlo driver (lines 1624-1639).

The numpy global random generator is modelled abstractly as a state
machine over an arbitrary state type `S`: `seedFn n` is the state
produced by `np.random.seed(n)` and each distribution draw is a state
transition returning one value.  The only facts the claims need are that
the generator is deterministic and that `gerar_parametros_mc_tese`
re-seeds with the constant 50 before drawing, both taken directly from
the source. -/

/-- Draw `n` consecutive values from a state-machine generator. -/
def drawN {S : Type} (draw : S → ℝ × S) : ℕ → S → List ℝ × S
  | 0, s => ([], s)
  | n + 1, s =>
    let x := draw s
    let rest := drawN draw n x.2
    (x.1 :: rest.1, rest.2)

/-- `gerar_parametros_mc_tese(n)`, lines 1624-1630: calls
`np.random.seed(50)` (discarding whatever state the generator held) and
then draws `n` moisture values, `n` temperatures and `n` DOC values. -/
def gerar_parametros_mc_tese {S : Type} (seedFn : ℕ → S)
    (unifDraw normalDraw triangDraw : S → ℝ × S) (n : ℕ) (s : S) :
    (List ℝ × List ℝ × List ℝ) × S :=
  let s0 := seedFn 50
  let u := drawN unifDraw n s0
  let t := drawN normalDraw n u.2
  let d := drawN triangDraw n t.2
  ((u.1, t.1, d.1), d.2)

/-- The Monte Carlo loop of lines 1632-1639: one
`executar_simulacao_completa` evaluation per sampled parameter triple,
collected in sample order. -/
def resultados_mc_tese {S : Type} (seedFn : ℕ → S)
    (unifDraw normalDraw triangDraw : S → ℝ × S) (n dias : ℕ)
    (residuos massa h : ℝ) (s : S) : List ℝ :=
  let p := gerar_parametros_mc_tese seedFn unifDraw normalDraw triangDraw n s
  (List.range n).map (fun i =>
    executar_simulacao_completa (p.1.1.getD i 0) (p.1.2.1.getD i 0)
      (p.1.2.2.getD i 0) dias residuos massa h)

/-! ### Auxiliary lemmas -/

/-- The un-clamped kernel is already non-negative for a non-negative
decay rate (in exact arithmetic). -/
lemma kernel_ch4_nonneg {k : ℝ} (hk : 0 ≤ k) (t : ℕ) : 0 ≤ kernel_ch4 k t := by
  unfold kernel_ch4
  have harg : -k * (t : ℝ) / 365 ≤ -k * ((t : ℝ) - 1) / 365 := by
    have h1 : -k * (t : ℝ) ≤ -k * ((t : ℝ) - 1) := by nlinarith
    exact (div_le_div_iff_of_pos_right (by norm_num : (0 : ℝ) < 365)).mpr h1
  exact sub_nonneg.mpr (Real.exp_le_exp.mpr harg)

/-- The lot kernel is the clamped form of the continuous-stream kernel at
the code's decay rate. -/
lemma kernel_lote_eq (t : ℕ) : kernel_ch4_lote t = max (kernel_ch4 k_ano t) 0 := by
  unfold kernel_ch4_lote kernel_ch4
  have h1 : -(k_ano / 365) * ((t : ℝ) - 1) = -k_ano * ((t : ℝ) - 1) / 365 := by ring
  have h2 : -(k_ano / 365) * (t : ℝ) = -k_ano * (t : ℝ) / 365 := by ring
  rw [h1, h2]

/-- Telescoping closed form of the kernel sum over days `1..N`. -/
lemma soma_kernel_eq (k : ℝ) (N : ℕ) :
    soma_kernel k N = 1 - Real.exp (-k * N / 365) := by
  induction N with
  | zero => simp [soma_kernel]
  | succ n ih =>
    rw [soma_kernel, Finset.sum_range_succ, ← soma_kernel, ih, kernel_ch4]
    push_cast
    have h1 : -k * ((n : ℝ) + 1 - 1) / 365 = -k * (n : ℝ) / 365 := by ring
    rw [h1]
    ring

/-- The clamp in the lot kernel is inert: summed, it agrees with the
un-clamped kernel sum. -/
lemma fracao_eq_soma (N : ℕ) : fracao_total_emitida N = soma_kernel k_ano N := by
  unfold fracao_total_emitida soma_kernel
  refine Finset.sum_congr rfl (fun t _ => ?_)
  rw [kernel_lote_eq]
  exact max_eq_left (kernel_ch4_nonneg (by norm_num [k_ano]) _)

/-- Prefix sums of a list of non-negative reals, read through `getD`,
never exceed the full sum. -/
lemma sum_range_getD_le (l : List ℝ) (hl : ∀ x ∈ l, 0 ≤ x) (M : ℕ) :
    ∑ c ∈ Finset.range M, l.getD c 0 ≤ l.sum := by
  induction l generalizing M with
  | nil => simp [List.getD_nil]
  | cons a t ih =>
    match M with
    | 0 =>
      simpa using add_nonneg (hl a (by simp))
        (List.sum_nonneg (fun x hx => hl x (List.mem_cons_of_mem a hx)))
    | M + 1 =>
      rw [Finset.sum_range_succ']
      simp only [List.getD_cons_succ, List.getD_cons_zero, List.sum_cons]
      have := ih (fun x hx => hl x (List.mem_cons_of_mem a hx)) M
      linarith

/-- Once the range covers the whole list, the `getD` sum is the list sum. -/
lemma sum_range_getD_eq (l : List ℝ) (M : ℕ) (h : l.length ≤ M) :
    ∑ c ∈ Finset.range M, l.getD c 0 = l.sum := by
  induction l generalizing M with
  | nil => simp [List.getD_nil]
  | cons a t ih =>
    match M with
    | 0 => simp at h
    | M + 1 =>
      rw [Finset.sum_range_succ']
      simp only [List.getD_cons_succ, List.getD_cons_zero, List.sum_cons]
      rw [ih M (by simpa using h)]
      ring

/-- Sum of a list mapped through `fun p => c * (p / s)`. -/
lemma sum_map_mul_div (l : List ℝ) (c s : ℝ) :
    (l.map (fun p => c * (p / s))).sum = c * (l.sum / s) := by
  induction l with
  | nil => simp
  | cons a t ih =>
    simp only [List.map_cons, List.sum_cons, ih]
    ring

lemma perfil_ch4_vermi_sum : PERFIL_CH4_VERMI.sum = 1.295 := by
  norm_num [PERFIL_CH4_VERMI]

lemma perfil_n2o_vermi_sum : PERFIL_N2O_VERMI.sum = 1.445 := by
  norm_num [PERFIL_N2O_VERMI]

lemma perfil_ch4_thermo_sum : PERFIL_CH4_THERMO.sum = 1.79 := by
  norm_num [PERFIL_CH4_THERMO]

lemma perfil_n2o_thermo_sum : PERFIL_N2O_THERMO.sum = 2.275 := by
  norm_num [PERFIL_N2O_THERMO]

lemma perfil_ch4_vermi_nonneg : ∀ x ∈ PERFIL_CH4_VERMI, (0 : ℝ) ≤ x := by
  norm_num [PERFIL_CH4_VERMI, List.forall_mem_cons]

lemma perfil_n2o_vermi_nonneg : ∀ x ∈ PERFIL_N2O_VERMI, (0 : ℝ) ≤ x := by
  norm_num [PERFIL_N2O_VERMI, List.forall_mem_cons]

lemma perfil_ch4_thermo_nonneg : ∀ x ∈ PERFIL_CH4_THERMO, (0 : ℝ) ≤ x := by
  norm_num [PERFIL_CH4_THERMO, List.forall_mem_cons]

lemma perfil_n2o_thermo_nonneg : ∀ x ∈ PERFIL_N2O_THERMO, (0 : ℝ) ≤ x := by
  norm_num [PERFIL_N2O_THERMO, List.forall_mem_cons]

/-! ### Claim theorems (first group) -/

/-- Claim C9: the single-lot landfill result is independent of its
moisture argument — `calcular_potencial_metano_aterro` accepts `umidade`
but never uses it, so all four returned components agree for any two
moisture values. -/
theorem potencial_aterro_ignora_umidade :
    ∀ (residuos u1 u2 T : ℝ) (dias : ℕ),
      calcular_potencial_metano_aterro residuos u1 T dias =
      calcular_potencial_metano_aterro residuos u2 T dias := by
  intros
  rfl

/-- Claim C10: the `dias` parameter of the single-lot composting
functions has no effect — both return the same pair as with the default
`dias = 50`, and the CH4 series always has length exactly 50. -/
theorem lote_ignora_dias :
    ∀ (residuos u : ℝ) (dias : ℕ),
      calcular_emissoes_vermicompostagem_lote residuos u dias =
        calcular_emissoes_vermicompostagem_lote residuos u 50 ∧
      (calcular_emissoes_vermicompostagem_lote residuos u dias).1.length = 50 ∧
      calcular_emissoes_compostagem_lote residuos u dias =
        calcular_emissoes_compostagem_lote residuos u 50 ∧
      (calcular_emissoes_compostagem_lote residuos u dias).1.length = 50 := by
  intro residuos u dias
  exact ⟨rfl, rfl, rfl, rfl⟩

/-- The operation `calcular_potencial_metano_aterro` applies to its raw
decay-kernel array before use, line 378:
`kernel_ch4 = np.maximum(kernel_ch4, 0)`.  It is modelled as acting on an
arbitrary raw array so that its behaviour on a negative entry (the
floating-point-noise case the clamp exists for) is expressible. -/
def clamp_kernel_lote (raw : ℕ → ℝ) (t : ℕ) : ℝ := max (raw t) 0

/-- The corresponding stage of `calcular_emissoes_aterro`, lines 613-617:
the computed kernel array is fed to the convolution directly — no
clamping operation appears between the kernel construction (line 614) and
its use (line 616), so this stage is the identity on the raw array. -/
def clamp_kernel_aterro (raw : ℕ → ℝ) (t : ℕ) : ℝ := raw t

/-- Claim C6 counterexample: `calcular_emissoes_aterro` does not clamp its
kernel — its kernel stage passes a negative raw entry (the value a
floating-point cancellation would produce) through unchanged, whereas the
claimed pointwise clamp `max(kernel, 0)` would return 0. -/
theorem kernel_clamp_ausente_counter :
    clamp_kernel_aterro (fun _ => (-1 : ℝ)) 1 ≠ max ((-1 : ℝ)) 0 := by
  have h : max ((-1 : ℝ)) 0 = 0 := max_eq_right (by norm_num)
  rw [h]
  norm_num [clamp_kernel_aterro]

/-- Claim C6 amended: only the single-lot landfill computation clamps
negative kernel values — its kernel stage is pointwise `max(·, 0)` and
its kernel is exactly the clamped raw kernel — while the
continuous-stream computation applies its raw kernel unclamped (its
stage is the identity on the raw array); in exact arithmetic the
unclamped kernel is non-negative at the code's decay rate, so the
missing clamp does not change the exactly-computed series. -/
theorem kernel_clamp_apenas_lote :
    (∀ (raw : ℕ → ℝ) (t : ℕ), clamp_kernel_lote raw t = max (raw t) 0) ∧
    (∀ (raw : ℕ → ℝ) (t : ℕ), clamp_kernel_aterro raw t = raw t) ∧
    (∀ t : ℕ, kernel_ch4_lote t =
      clamp_kernel_lote (fun s =>
        Real.exp (-(k_ano / 365) * ((s : ℝ) - 1)) -
        Real.exp (-(k_ano / 365) * (s : ℝ))) t) ∧
    (∀ t : ℕ, 0 ≤ kernel_ch4 k_ano t) :=
  ⟨fun _ _ => rfl, fun _ _ => rfl, fun _ => rfl,
   fun t => kernel_ch4_nonneg (by norm_num [k_ano]) t⟩

/-- Claim C8: two Monte Carlo runs with the same sample count and the
same fixed inputs produce identical outputs — `gerar_parametros_mc_tese`
re-seeds the generator with the constant 50 before drawing, so for every
deterministic generator model the sampled parameters and the resulting
list of avoided-emission values do not depend on the generator state the
run started from. -/
theorem mc_reprodutivel :
    ∀ {S : Type} (seedFn : ℕ → S) (unifDraw normalDraw triangDraw : S → ℝ × S)
      (n dias : ℕ) (residuos massa h : ℝ) (s1 s2 : S),
      resultados_mc_tese seedFn unifDraw normalDraw triangDraw n dias
          residuos massa h s1 =
        resultados_mc_tese seedFn unifDraw normalDraw triangDraw n dias
          residuos massa h s2 ∧
      (gerar_parametros_mc_tese seedFn unifDraw normalDraw triangDraw n s1).1 =
        (gerar_parametros_mc_tese seedFn unifDraw normalDraw triangDraw n s2).1 := by
  intros
  exact ⟨rfl, rfl⟩

/-- Claim C5 (code bug): for `residuos_kg_dia = 0` the function does not
return all-zero series — the Python scalar division
`massa_exposta_kg / residuos_kg_dia` on line 607 raises, which the
checked embedding renders as `none`; in the exact-arithmetic
idealization, where that division is harmless, every output value is
indeed zero, which is what the spec describes. -/
theorem aterro_residuo_zero_bug :
    calcular_emissoes_aterro_checked 0.85 25 0.15 50 0 100 8 = none ∧
    ∀ (u T doc massa h : ℝ) (m : ℕ),
      total_ch4_aterro u T doc 0 massa h m = 0 ∧
      total_n2o_aterro u T doc 0 massa h m = 0 := by
  constructor
  · simp [calcular_emissoes_aterro_checked]
  · intro u T doc massa h m
    constructor
    · simp [total_ch4_aterro, ch4_aterro_fod]
    · simp [total_n2o_aterro, emissao_diaria_N2O_aterro]

/-- Claim C4 counterexample: with moisture `2 ∉ (0,1)` (and all other
arguments valid) the landfill entry point does not reject the input —
it returns an emissions result. -/
theorem validacao_ausente_counter :
    (calcular_emissoes_aterro_checked 2 25 0.15 50 100 100 8).isSome = true := by
  norm_num [calcular_emissoes_aterro_checked]

/-- Claim C4 amended: the simulation entry points perform no domain
validation.  Whenever `residuos_kg_dia ≠ 0` (the only value that makes
the code fail, via an unguarded scalar division rather than a check),
`calcular_emissoes_aterro` returns its computed series for arbitrary
out-of-domain parameters, and an invalid moisture such as 2 silently
propagates — e.g. producing a negative vermicomposting CH4 value. -/
theorem validacao_ausente :
    (∀ (u T doc residuos massa h : ℝ) (dias : ℕ), residuos ≠ 0 →
      calcular_emissoes_aterro_checked u T doc dias residuos massa h =
        some (calcular_emissoes_aterro u T doc dias residuos massa h)) ∧
    ch4_vermi 2 100 0 < 0 := by
  constructor
  · intro u T doc residuos massa h dias hres
    simp [calcular_emissoes_aterro_checked, hres]
  · unfold ch4_vermi
    rw [Finset.sum_range_one, perfil_ch4_vermi_sum]
    norm_num [PERFIL_CH4_VERMI, TOC_YANG, CH4_C_FRAC_YANG]

/-- Witness for the amended claim C4 at a concrete valid input. -/
theorem validacao_ausente_w :
    calcular_emissoes_aterro_checked 0.85 25 0.15 7300 100 100 8 =
      some (calcular_emissoes_aterro 0.85 25 0.15 7300 100 100 8) :=
  validacao_ausente.1 0.85 25 0.15 100 100 8 7300 (by norm_num)

/-- Claim C1: the landfill decay kernel — used without renormalization by
`calcular_emissoes_aterro` and (after its inert clamp) by
`calcular_potencial_metano_aterro` — sums over days `1..N` to
`1 - exp(-k*N/365)` for every decay rate; for `k > 0` the sum is
strictly below 1, strictly increasing in the horizon and tends to 1; at
the code's `k = 0.06` with `N = 365` the emitted fraction equals
`1 - exp(-0.06)`. -/
theorem kernel_aterro_soma_correta :
    (∀ k : ℝ, 0 < k →
      (∀ N : ℕ, soma_kernel k N = 1 - Real.exp (-k * N / 365)) ∧
      (∀ N : ℕ, soma_kernel k N < 1) ∧
      StrictMono (soma_kernel k) ∧
      Filter.Tendsto (soma_kernel k) Filter.atTop (nhds 1)) ∧
    (∀ N : ℕ, fracao_total_emitida N = soma_kernel k_ano N) ∧
    fracao_total_emitida 365 = 1 - Real.exp (-0.06) := by
  have hmain : ∀ k : ℝ, 0 < k →
      (∀ N : ℕ, soma_kernel k N = 1 - Real.exp (-k * N / 365)) ∧
      (∀ N : ℕ, soma_kernel k N < 1) ∧
      StrictMono (soma_kernel k) ∧
      Filter.Tendsto (soma_kernel k) Filter.atTop (nhds 1) := by
    intro k hk
    refine ⟨soma_kernel_eq k, fun N => ?_, ?_, ?_⟩
    · rw [soma_kernel_eq]
      have := Real.exp_pos (-k * N / 365)
      linarith
    · apply strictMono_nat_of_lt_succ
      intro n
      have hstep : soma_kernel k (n + 1) = soma_kernel k n + kernel_ch4 k (n + 1) := by
        unfold soma_kernel
        rw [Finset.sum_range_succ]
      rw [hstep]
      have hker : 0 < kernel_ch4 k (n + 1) := by
        unfold kernel_ch4
        apply sub_pos.mpr
        apply Real.exp_lt_exp.mpr
        rw [div_lt_div_iff_of_pos_right (by norm_num : (0 : ℝ) < 365)]
        push_cast
        nlinarith
      linarith
    · have hre : ∀ N : ℕ, soma_kernel k N = 1 - Real.exp (-(k / 365)) ^ N := by
        intro N
        rw [soma_kernel_eq, ← Real.exp_nat_mul]
        congr 1
        ring_nf
      have hr1 : Real.exp (-(k / 365)) < 1 := by
        rw [Real.exp_lt_one_iff]
        have : 0 < k / 365 := div_pos hk (by norm_num)
        linarith
      have h0 : Filter.Tendsto (fun N : ℕ => Real.exp (-(k / 365)) ^ N)
          Filter.atTop (nhds 0) :=
        tendsto_pow_atTop_nhds_zero_of_lt_one (Real.exp_nonneg _) hr1
      have h1 := Filter.Tendsto.const_sub 1 h0
      rw [sub_zero] at h1
      exact h1.congr (fun N => (hre N).symm)
  refine ⟨hmain, fracao_eq_soma, ?_⟩
  have harg : -k_ano * ((365 : ℕ) : ℝ) / 365 = -0.06 := by norm_num [k_ano]
  rw [fracao_eq_soma, soma_kernel_eq, harg]

/-- Witness for claim C1 at a concrete decay rate. -/
theorem kernel_aterro_soma_correta_w : soma_kernel 1 5 < 1 :=
  ((kernel_aterro_soma_correta.1 1 one_pos).2.1) 5

/-- Claim C2: the normalized 50-day profiles conserve the batch totals —
the CH4 series of `calcular_emissoes_vermicompostagem_lote` sums to
`w * 0.436 * 0.0013 * (16/12) * (1-u)` and that of
`calcular_emissoes_compostagem_lote` to
`w * 0.436 * 0.006 * (16/12) * (1-u)`. -/
theorem lote_conserva_massa :
    ∀ (w u : ℝ) (dias : ℕ), 0 ≤ w → 0 < u → u < 1 →
      (calcular_emissoes_vermicompostagem_lote w u dias).1.sum =
        w * 0.436 * 0.0013 * (16 / 12) * (1 - u) ∧
      (calcular_emissoes_compostagem_lote w u dias).1.sum =
        w * 0.436 * 0.006 * (16 / 12) * (1 - u) := by
  intro w u dias hw hu0 hu1
  constructor
  · unfold calcular_emissoes_vermicompostagem_lote
    rw [sum_map_mul_div, perfil_ch4_vermi_sum]
    norm_num [TOC_YANG]
    ring_nf
  · unfold calcular_emissoes_compostagem_lote
    rw [sum_map_mul_div, perfil_ch4_thermo_sum]
    norm_num [TOC_YANG]
    ring_nf

/-- Witness for claim C2: the 100 kg, 85% moisture scenario named by the
spec. -/
theorem lote_conserva_massa_w :
    (calcular_emissoes_vermicompostagem_lote 100 0.85 50).1.sum =
      100 * 0.436 * 0.0013 * (16 / 12) * 0.15 := by
  have h := (lote_conserva_massa 100 0.85 50 (by norm_num) (by norm_num)
    (by norm_num)).1
  rw [h]
  norm_num

/-! ### Further auxiliary lemmas (exp bounds, single-lot accumulations) -/

/-- Linear upper bound `1 - exp(-x) ≤ x`. -/
lemma one_sub_exp_le (x : ℝ) : 1 - Real.exp (-x) ≤ x := by
  have := Real.add_one_le_exp (-x)
  linarith

/-- Rational lower bound `x/(1+x) ≤ 1 - exp(-x)` for `x ≥ 0`. -/
lemma one_sub_exp_ge (x : ℝ) (hx : 0 ≤ x) : x / (1 + x) ≤ 1 - Real.exp (-x) := by
  have h1 : (0 : ℝ) < 1 + x := by linarith
  have h2 : 1 + x ≤ Real.exp x := by
    have := Real.add_one_le_exp x
    linarith
  have h3 : Real.exp (-x) ≤ (1 + x)⁻¹ := by
    rw [Real.exp_neg]
    exact inv_anti₀ h1 h2
  have h4 : x / (1 + x) = 1 - (1 + x)⁻¹ := by field_simp
  linarith

/-- Sum of a function mapped over `List.range`, as a `Finset.range` sum. -/
lemma sum_map_list_range (f : ℕ → ℝ) (n : ℕ) :
    ((List.range n).map f).sum = ∑ i ∈ Finset.range n, f i := by
  induction n with
  | zero => simp
  | succ m ih =>
    rw [List.range_succ, List.map_append, List.sum_append,
      Finset.sum_range_succ, ih]
    simp

/-- Closed form of the single-lot landfill accumulation: potential times
the emitted fraction, with the inert clamp removed. -/
lemma aterro_lote_acum_eq (res u T : ℝ) (dias : ℕ) :
    aterro_lote_acum res u T dias =
      res * potencial_CH4_por_kg 0.15 T * soma_kernel k_ano dias := by
  unfold aterro_lote_acum calcular_potencial_metano_aterro
  rw [sum_map_list_range, ← fracao_eq_soma, fracao_total_emitida,
    Finset.mul_sum]

/-- With a horizon of at least 50 days, the single-lot vermicomposting
accumulation is the whole per-batch total. -/
lemma vermi_lote_acum_full (res u : ℝ) (dias : ℕ) (h50 : 50 ≤ dias) :
    vermi_lote_acum res u dias =
      res * (TOC_YANG * (0.13 / 100) * (16 / 12) * (1 - u)) := by
  unfold vermi_lote_acum calcular_emissoes_vermicompostagem_lote
  have hmin : min 50 dias = 50 := min_eq_left h50
  rw [hmin]
  rw [sum_range_getD_eq _ _ (by simp [List.length_map, PERFIL_CH4_VERMI])]
  rw [sum_map_mul_div, perfil_ch4_vermi_sum]
  norm_num

/-! ### Claim C3 -/

/-- Claim C3 counterexample: the single-lot avoided total reported by the
app does not equal the `(ch4*79.7 + n2o*273)/1000` difference of the two
pathways — at the default lot input (100 kg, moisture 0.85, 25 °C,
50 days) the code multiplies the avoided CH4 mass by 27.9, not 79.7. -/
theorem gwp_lote_diverge :
    total_evitado_vermi_tco2eq 100 0.85 25 50 ≠
      avoided_lote_per_claim 100 0.85 25 50 := by
  have hlen : ((calcular_potencial_metano_aterro (100 : ℝ) 0.85 25 50).1).length ≤ 50 := by
    simp [calcular_potencial_metano_aterro, List.length_map, List.length_range]
  have hA : ∑ t ∈ Finset.range 50,
      ((calcular_potencial_metano_aterro (100 : ℝ) 0.85 25 50).1).getD t 0 =
      aterro_lote_acum 100 0.85 25 50 :=
    sum_range_getD_eq _ _ hlen
  have hclaim : avoided_lote_per_claim 100 0.85 25 50 =
      (aterro_lote_acum 100 0.85 25 50 - vermi_lote_acum 100 0.85 50) *
        79.7 / 1000 := by
    unfold avoided_lote_per_claim
    have hif : ∀ t ∈ Finset.range 50,
        ((if t < min 50 50 then
            ((calcular_emissoes_vermicompostagem_lote (100 : ℝ) 0.85 (min 50 50)).1).getD t 0
          else 0) * 79.7 + 0 * 273) / 1000 =
        (((calcular_emissoes_vermicompostagem_lote (100 : ℝ) 0.85 (min 50 50)).1).getD t 0 *
          79.7 + 0 * 273) / 1000 := by
      intro t ht
      rw [if_pos]
      simpa [min_self] using Finset.mem_range.mp ht
    rw [Finset.sum_congr rfl hif]
    have hexp : ∀ (l : List ℝ),
        ∑ t ∈ Finset.range 50, (l.getD t 0 * 79.7 + 0 * 273) / 1000 =
          (∑ t ∈ Finset.range 50, l.getD t 0) * 79.7 / 1000 := by
      intro l
      rw [Finset.sum_mul, Finset.sum_div]
      refine Finset.sum_congr rfl (fun t _ => ?_)
      ring
    rw [hexp, hexp, hA]
    unfold vermi_lote_acum
    rw [min_self]
    ring
  have hcode : total_evitado_vermi_tco2eq 100 0.85 25 50 =
      (aterro_lote_acum 100 0.85 25 50 - vermi_lote_acum 100 0.85 50) *
        27.9 / 1000 := rfl
  have hAval : (0.0475 : ℝ) ≤ aterro_lote_acum 100 0.85 25 50 := by
    rw [aterro_lote_acum_eq, soma_kernel_eq]
    have harg : -k_ano * ((50 : ℕ) : ℝ) / 365 = -(3 / 365) := by
      norm_num [k_ano]
    rw [harg]
    have hx := one_sub_exp_ge (3 / 365) (by norm_num)
    have hpot : potencial_CH4_por_kg 0.15 25 = 0.058275 := by
      norm_num [potencial_CH4_por_kg, DOCf_of, MCF, F, OX, Ri]
    rw [hpot]
    nlinarith
  have hVval : vermi_lote_acum 100 0.85 50 = 1.1336 / 100 := by
    rw [vermi_lote_acum_full 100 0.85 50 le_rfl]
    norm_num [TOC_YANG]
  intro heq
  rw [hcode, hclaim] at heq
  rw [hVval] at heq
  nlinarith [hAval]

/-- Claim C3 amended: the continuous-stream analyses convert with the
20-year GWPs 79.7 (CH4) and 273 (N2O) and report baseline-minus-
alternative sums of `(ch4*79.7 + n2o*273)/1000`; the single-lot analysis
instead multiplies the avoided CH4 mass by the 100-year GWP 27.9 and
carries no N2O term. -/
theorem gwp_conversoes_corrigidas :
    (∀ (u T doc : ℝ) (dias : ℕ) (residuos massa h : ℝ),
      executar_simulacao_completa u T doc dias residuos massa h =
        (∑ m ∈ Finset.range dias,
          (total_ch4_aterro u T doc residuos massa h m * 79.7 +
           total_n2o_aterro u T doc residuos massa h m * 273) / 1000) -
        ∑ m ∈ Finset.range dias,
          (ch4_vermi u residuos m * 79.7 + n2o_vermi u residuos m * 273) / 1000) ∧
    (∀ (u T doc : ℝ) (dias : ℕ) (residuos massa h : ℝ),
      executar_simulacao_unfccc u T doc dias residuos massa h =
        (∑ m ∈ Finset.range dias,
          (total_ch4_aterro u T doc residuos massa h m * 79.7 +
           total_n2o_aterro u T doc residuos massa h m * 273) / 1000) -
        ∑ m ∈ Finset.range dias,
          (ch4_compost u residuos m * 79.7 + n2o_compost u residuos m * 273) / 1000) ∧
    (∀ (residuos u T : ℝ) (dias : ℕ),
      total_evitado_vermi_tco2eq residuos u T dias =
        (aterro_lote_acum residuos u T dias - vermi_lote_acum residuos u dias) *
          27.9 / 1000) :=
  ⟨fun _ _ _ _ _ _ _ => rfl, fun _ _ _ _ _ _ _ => rfl, fun _ _ _ _ => rfl⟩

/-! ### Auxiliary lemmas for the avoided-emissions sign (claim C7) -/

lemma perfil_n2o_fn_nonneg (d : ℕ) : 0 ≤ PERFIL_N2O d := by
  unfold PERFIL_N2O
  split_ifs <;> norm_num

lemma perfil_pre_fn_nonneg (d : ℕ) : 0 ≤ PERFIL_N2O_PRE_DESCARTE d := by
  unfold PERFIL_N2O_PRE_DESCARTE
  split_ifs <;> norm_num

lemma f_aberto_mem (residuos massa h : ℝ) :
    0 ≤ f_aberto residuos massa h ∧ f_aberto residuos massa h ≤ 1 :=
  ⟨le_min (le_max_right _ _) zero_le_one, min_le_right _ _⟩

lemma emissao_diaria_N2O_nonneg (u residuos massa h : ℝ) (hu : u ≤ 1)
    (hres : 0 ≤ residuos) : 0 ≤ emissao_diaria_N2O_aterro u residuos massa h := by
  unfold emissao_diaria_N2O_aterro
  have hf := f_aberto_mem residuos massa h
  have hE : 0 ≤ f_aberto residuos massa h * 1.91 +
      (1 - f_aberto residuos massa h) * 2.15 := by nlinarith [hf.1, hf.2]
  have hfu : 0 ≤ (1 - u) / (1 - 0.55) := by
    apply div_nonneg <;> linarith
  exact mul_nonneg (div_nonneg (mul_nonneg (mul_nonneg hE hfu) (by norm_num))
    (by norm_num)) hres

lemma total_n2o_aterro_nonneg (u T doc residuos massa h : ℝ) (hu : u ≤ 1)
    (hres : 0 ≤ residuos) (m : ℕ) :
    0 ≤ total_n2o_aterro u T doc residuos massa h m := by
  unfold total_n2o_aterro
  apply add_nonneg
  · exact Finset.sum_nonneg (fun j _ =>
      mul_nonneg (emissao_diaria_N2O_nonneg u residuos massa h hu hres)
        (perfil_n2o_fn_nonneg _))
  · refine Finset.sum_nonneg (fun j _ => div_nonneg ?_ (by norm_num))
    exact mul_nonneg
      (mul_nonneg hres (by norm_num [N2O_pre_descarte_g_por_kg_dia]))
      (perfil_pre_fn_nonneg _)

lemma pre_ch4_nonneg (residuos : ℝ) (hres : 0 ≤ residuos) :
    0 ≤ residuos * CH4_pre_descarte_g_por_kg_dia / 1000 :=
  div_nonneg (mul_nonneg hres (by norm_num [CH4_pre_descarte_g_por_kg_dia]))
    (by norm_num)

lemma getD_nonneg (l : List ℝ) (hl : ∀ x ∈ l, 0 ≤ x) (c : ℕ) :
    0 ≤ l.getD c 0 := by
  rcases lt_or_ge c l.length with hc | hc
  · rw [List.getD_eq_getElem l 0 hc]
    exact hl _ (l.getElem_mem hc)
  · rw [List.getD_eq_default l 0 hc]

/-- The lower bound on the waste-specific methane potential over the
parameter ranges of the claim. -/
lemma potencial_lb (T doc : ℝ) (hT : 15 ≤ T) (hdoc : 0.10 ≤ doc) :
    0.03003 ≤ potencial_CH4_por_kg doc T := by
  have hD : 0.5005 ≤ DOCf_of T := by
    unfold DOCf_of
    linarith
  have hmul : 0.10 * 0.5005 ≤ doc * DOCf_of T :=
    mul_le_mul hdoc hD (by norm_num) (by linarith)
  unfold potencial_CH4_por_kg
  norm_num [MCF, F, Ri, OX]
  nlinarith [hmul]

/-- Decay-driven landfill CH4 in closed form for day `m`. -/
lemma ch4_aterro_fod_eq (T doc residuos : ℝ) (m : ℕ) :
    ch4_aterro_fod T doc residuos m =
      residuos * potencial_CH4_por_kg doc T *
        (1 - Real.exp (-k_ano * ((m : ℝ) + 1) / 365)) := by
  unfold ch4_aterro_fod
  have hsum : ∑ j ∈ Finset.range (m + 1), kernel_ch4 k_ano (j + 1) =
      1 - Real.exp (-k_ano * ((m : ℝ) + 1) / 365) := by
    have h := soma_kernel_eq k_ano (m + 1)
    unfold soma_kernel at h
    rw [h]
    push_cast
    ring_nf
  rw [hsum]

/-- The per-day emitted fraction is non-negative. -/
lemma fod_frac_nonneg (m : ℕ) :
    0 ≤ 1 - Real.exp (-k_ano * ((m : ℝ) + 1) / 365) := by
  have harg : -k_ano * ((m : ℝ) + 1) / 365 = -(k_ano * ((m : ℝ) + 1) / 365) := by
    ring
  rw [harg]
  have hx : 0 ≤ k_ano * ((m : ℝ) + 1) / 365 := by
    have : (0 : ℝ) ≤ (m : ℝ) + 1 := by positivity
    norm_num [k_ano]
    nlinarith
  have := one_sub_exp_ge _ hx
  have hfrac : 0 ≤ k_ano * ((m : ℝ) + 1) / 365 / (1 + k_ano * ((m : ℝ) + 1) / 365) := by
    apply div_nonneg hx
    linarith
  linarith

/-- Chunked lower bound for the sum of the per-day emitted fractions:
each 73-day block of days past day `73*i` emits at least the fraction
`0.012*i/(1+0.012*i)` of one day's potential per day. -/
lemma soma_fod_chunk (p : ℕ) :
    ∑ i ∈ Finset.range p, 73 * (0.012 * (i : ℝ) / (1 + 0.012 * (i : ℝ))) ≤
      ∑ m ∈ Finset.range (73 * p),
        (1 - Real.exp (-k_ano * ((m : ℝ) + 1) / 365)) := by
  induction p with
  | zero => simp
  | succ q ih =>
    have hsplit : 73 * (q + 1) = 73 * q + 73 := by ring
    rw [Finset.sum_range_succ, hsplit, Finset.sum_range_add]
    have hterm : ∀ i ∈ Finset.range 73,
        0.012 * (q : ℝ) / (1 + 0.012 * (q : ℝ)) ≤
          1 - Real.exp (-k_ano * (((73 * q + i : ℕ) : ℝ) + 1) / 365) := by
      intro i hi
      have hx : (0 : ℝ) ≤ 0.012 * (q : ℝ) := by positivity
      have h1 := one_sub_exp_ge (0.012 * (q : ℝ)) hx
      have h2 : Real.exp (-k_ano * (((73 * q + i : ℕ) : ℝ) + 1) / 365) ≤
          Real.exp (-(0.012 * (q : ℝ))) := by
        apply Real.exp_le_exp.mpr
        push_cast
        norm_num [k_ano]
        nlinarith [Nat.cast_nonneg (α := ℝ) i, Nat.cast_nonneg (α := ℝ) q]
      linarith
    have hblock := Finset.card_nsmul_le_sum (Finset.range 73) _ _ hterm
    rw [Finset.card_range, nsmul_eq_mul] at hblock
    have h73 : ((73 : ℕ) : ℝ) = 73 := by norm_num
    rw [h73] at hblock
    exact add_le_add ih hblock

/-- Numeric evaluation of the 25-chunk bound: the first 1825 days emit
at least 182.5 day-equivalents of the daily potential. -/
lemma soma_chunk_num :
    (182.5 : ℝ) ≤
      ∑ i ∈ Finset.range 25, 73 * (0.012 * (i : ℝ) / (1 + 0.012 * (i : ℝ))) := by
  simp only [Finset.sum_range_succ, Finset.sum_range_zero]
  push_cast
  norm_num

/-- Linear-in-horizon lower bound for the summed emitted fractions:
for horizons of at least 1825 days the landfill has released at least a
tenth of the potential injected per day, per day of horizon. -/
lemma soma_fod_lb (N : ℕ) (hN : 1825 ≤ N) :
    (N : ℝ) / 10 ≤
      ∑ m ∈ Finset.range N, (1 - Real.exp (-k_ano * ((m : ℝ) + 1) / 365)) := by
  have hsplit :
      ∑ m ∈ Finset.range N, (1 - Real.exp (-k_ano * ((m : ℝ) + 1) / 365)) =
        (∑ m ∈ Finset.range 1825, (1 - Real.exp (-k_ano * ((m : ℝ) + 1) / 365))) +
        ∑ m ∈ Finset.Ico 1825 N, (1 - Real.exp (-k_ano * ((m : ℝ) + 1) / 365)) := by
    rw [Finset.range_eq_Ico,
      ← Finset.sum_Ico_consecutive _ (Nat.zero_le 1825) hN,
      ← Finset.range_eq_Ico]
  have hchunk := soma_fod_chunk 25
  have h1825 : (73 * 25 : ℕ) = 1825 := by norm_num
  rw [h1825] at hchunk
  have h1 : (182.5 : ℝ) ≤
      ∑ m ∈ Finset.range 1825, (1 - Real.exp (-k_ano * ((m : ℝ) + 1) / 365)) :=
    le_trans soma_chunk_num hchunk
  have htail : ∀ m ∈ Finset.Ico 1825 N,
      (3 / 13 : ℝ) ≤ 1 - Real.exp (-k_ano * ((m : ℝ) + 1) / 365) := by
    intro m hm
    obtain ⟨hm1, _⟩ := Finset.mem_Ico.mp hm
    have hcast : (1825 : ℝ) ≤ (m : ℝ) := by exact_mod_cast hm1
    have h2 : Real.exp (-k_ano * ((m : ℝ) + 1) / 365) ≤ Real.exp (-(3 / 10)) := by
      apply Real.exp_le_exp.mpr
      norm_num [k_ano]
      linarith
    have h3 := one_sub_exp_ge (3 / 10) (by norm_num)
    have h4 : (3 / 10 : ℝ) / (1 + 3 / 10) = 3 / 13 := by norm_num
    rw [h4] at h3
    linarith
  have h5 := Finset.card_nsmul_le_sum (Finset.Ico 1825 N) _ _ htail
  rw [Nat.card_Ico, nsmul_eq_mul] at h5
  have hc : ((N - 1825 : ℕ) : ℝ) = (N : ℝ) - 1825 := by
    push_cast [Nat.cast_sub hN]
    ring
  rw [hc] at h5
  have hcastN : (1825 : ℝ) ≤ (N : ℝ) := by exact_mod_cast hN
  rw [hsplit]
  linarith

/-- Lower bound on the summed landfill CO2eq series over the claim's
parameter ranges: the decay-driven CH4 alone already accounts for at
least `residuos * 0.03003 * 79.7/1000` per tenth-day of horizon. -/
lemma aterro_tco2eq_lb (u T doc residuos massa h : ℝ) (N : ℕ)
    (hu : u ≤ 1) (hT : 15 ≤ T) (hdoc : 0.10 ≤ doc) (hres : 0 ≤ residuos)
    (hN : 1825 ≤ N) :
    residuos * (0.03003 * GWP_CH4_20 / 1000) * ((N : ℝ) / 10) ≤
      ∑ m ∈ Finset.range N,
        (total_ch4_aterro u T doc residuos massa h m * GWP_CH4_20 +
         total_n2o_aterro u T doc residuos massa h m * GWP_N2O_20) / 1000 := by
  have hpk := potencial_lb T doc hT hdoc
  have hterm : ∀ m ∈ Finset.range N,
      residuos * (0.03003 * GWP_CH4_20 / 1000) *
          (1 - Real.exp (-k_ano * ((m : ℝ) + 1) / 365)) ≤
        (total_ch4_aterro u T doc residuos massa h m * GWP_CH4_20 +
         total_n2o_aterro u T doc residuos massa h m * GWP_N2O_20) / 1000 := by
    intro m hm
    have hf := fod_frac_nonneg m
    have hn2o := total_n2o_aterro_nonneg u T doc residuos massa h hu hres m
    have hpre := pre_ch4_nonneg residuos hres
    have hg : (0 : ℝ) < GWP_CH4_20 := by norm_num [GWP_CH4_20]
    have hgn : (0 : ℝ) ≤ GWP_N2O_20 := by norm_num [GWP_N2O_20]
    unfold total_ch4_aterro
    rw [ch4_aterro_fod_eq]
    have hkey : residuos * 0.03003 * (1 - Real.exp (-k_ano * ((m : ℝ) + 1) / 365)) ≤
        residuos * potencial_CH4_por_kg doc T *
          (1 - Real.exp (-k_ano * ((m : ℝ) + 1) / 365)) :=
      mul_le_mul_of_nonneg_right (mul_le_mul_of_nonneg_left hpk hres) hf
    have hkg := mul_le_mul_of_nonneg_right hkey (le_of_lt hg)
    have hPg := mul_nonneg hpre (le_of_lt hg)
    have hng := mul_nonneg hn2o hgn
    nlinarith [hkg, hPg, hng]
  have hsum := Finset.sum_le_sum hterm
  rw [← Finset.mul_sum] at hsum
  have hS := soma_fod_lb N hN
  have hc : 0 ≤ residuos * (0.03003 * GWP_CH4_20 / 1000) :=
    mul_nonneg hres (by norm_num [GWP_CH4_20])
  calc residuos * (0.03003 * GWP_CH4_20 / 1000) * ((N : ℝ) / 10)
      ≤ residuos * (0.03003 * GWP_CH4_20 / 1000) *
          ∑ m ∈ Finset.range N, (1 - Real.exp (-k_ano * ((m : ℝ) + 1) / 365)) :=
        mul_le_mul_of_nonneg_left hS hc
    _ ≤ _ := hsum

/-- The normalized profile prefix weights lie in `[0, 1]`. -/
lemma pathway_prefix_mem (l : List ℝ) (hl : ∀ x ∈ l, 0 ≤ x) (hs : 0 < l.sum)
    (m : ℕ) :
    0 ≤ (∑ c ∈ Finset.range (m + 1), l.getD c 0 / l.sum) ∧
      (∑ c ∈ Finset.range (m + 1), l.getD c 0 / l.sum) ≤ 1 := by
  constructor
  · exact Finset.sum_nonneg (fun c _ => div_nonneg (getD_nonneg l hl c) hs.le)
  · rw [← Finset.sum_div, div_le_one hs]
    exact sum_range_getD_le l hl (m + 1)

/-- Helper: a non-negative total, bounded by its maximum, spread with a
prefix weight in `[0,1]`, stays below the maximum. -/
lemma spread_le_max {r a amax p : ℝ} (hr : 0 ≤ r) (ha0 : 0 ≤ a) (ha : a ≤ amax)
    (hp0 : 0 ≤ p) (hp1 : p ≤ 1) : r * a * p ≤ r * amax := by
  nlinarith [mul_nonneg (mul_nonneg hr ha0) (sub_nonneg.mpr hp1),
    mul_nonneg hr (sub_nonneg.mpr ha)]

/-- Upper bound on the summed thermophilic-composting CO2eq series for
moisture at least 0.40. -/
lemma compost_tco2eq_ub (u residuos : ℝ) (N : ℕ) (hu0 : 0.40 ≤ u)
    (hu1 : u ≤ 1) (hres : 0 ≤ residuos) :
    ∑ m ∈ Finset.range N,
        (ch4_compost u residuos m * GWP_CH4_20 +
         n2o_compost u residuos m * GWP_N2O_20) / 1000 ≤
      (N : ℝ) * (residuos *
        ((TOC_YANG * CH4_C_FRAC_THERMO * (16 / 12) * 0.6) * GWP_CH4_20 +
         (TN_YANG * N2O_N_FRAC_THERMO * (44 / 28) * 0.6) * GWP_N2O_20) / 1000) := by
  have h1u0 : (0 : ℝ) ≤ 1 - u := by linarith
  have h1u : 1 - u ≤ 0.6 := by linarith
  have hterm : ∀ m ∈ Finset.range N,
      (ch4_compost u residuos m * GWP_CH4_20 +
       n2o_compost u residuos m * GWP_N2O_20) / 1000 ≤
      residuos *
        ((TOC_YANG * CH4_C_FRAC_THERMO * (16 / 12) * 0.6) * GWP_CH4_20 +
         (TN_YANG * N2O_N_FRAC_THERMO * (44 / 28) * 0.6) * GWP_N2O_20) / 1000 := by
    intro m hm
    have hPc := pathway_prefix_mem PERFIL_CH4_THERMO perfil_ch4_thermo_nonneg
      (by rw [perfil_ch4_thermo_sum]; norm_num) m
    have hPn := pathway_prefix_mem PERFIL_N2O_THERMO perfil_n2o_thermo_nonneg
      (by rw [perfil_n2o_thermo_sum]; norm_num) m
    have hch4 : ch4_compost u residuos m ≤
        residuos * (TOC_YANG * CH4_C_FRAC_THERMO * (16 / 12) * 0.6) := by
      unfold ch4_compost
      refine spread_le_max hres ?_ ?_ hPc.1 hPc.2
      · refine mul_nonneg (by norm_num [TOC_YANG, CH4_C_FRAC_THERMO]) h1u0
      · exact mul_le_mul_of_nonneg_left h1u
          (by norm_num [TOC_YANG, CH4_C_FRAC_THERMO])
    have hn2o : n2o_compost u residuos m ≤
        residuos * (TN_YANG * N2O_N_FRAC_THERMO * (44 / 28) * 0.6) := by
      unfold n2o_compost
      refine spread_le_max hres ?_ ?_ hPn.1 hPn.2
      · refine mul_nonneg (by norm_num [TN_YANG, N2O_N_FRAC_THERMO]) h1u0
      · exact mul_le_mul_of_nonneg_left h1u
          (by norm_num [TN_YANG, N2O_N_FRAC_THERMO])
    have hc1 := mul_le_mul_of_nonneg_right hch4
      (by norm_num [GWP_CH4_20] : (0 : ℝ) ≤ GWP_CH4_20)
    have hc2 := mul_le_mul_of_nonneg_right hn2o
      (by norm_num [GWP_N2O_20] : (0 : ℝ) ≤ GWP_N2O_20)
    linarith
  calc ∑ m ∈ Finset.range N,
        (ch4_compost u residuos m * GWP_CH4_20 +
         n2o_compost u residuos m * GWP_N2O_20) / 1000
      ≤ ∑ _m ∈ Finset.range N,
          residuos *
            ((TOC_YANG * CH4_C_FRAC_THERMO * (16 / 12) * 0.6) * GWP_CH4_20 +
             (TN_YANG * N2O_N_FRAC_THERMO * (44 / 28) * 0.6) * GWP_N2O_20) / 1000 :=
        Finset.sum_le_sum hterm
    _ = (N : ℝ) * (residuos *
          ((TOC_YANG * CH4_C_FRAC_THERMO * (16 / 12) * 0.6) * GWP_CH4_20 +
           (TN_YANG * N2O_N_FRAC_THERMO * (44 / 28) * 0.6) * GWP_N2O_20) / 1000) := by
        rw [Finset.sum_const, Finset.card_range, nsmul_eq_mul]

/-- Upper bound on the summed vermicomposting CO2eq series for moisture
at least 0.40. -/
lemma vermi_tco2eq_ub (u residuos : ℝ) (N : ℕ) (hu0 : 0.40 ≤ u)
    (hu1 : u ≤ 1) (hres : 0 ≤ residuos) :
    ∑ m ∈ Finset.range N,
        (ch4_vermi u residuos m * GWP_CH4_20 +
         n2o_vermi u residuos m * GWP_N2O_20) / 1000 ≤
      (N : ℝ) * (residuos *
        ((TOC_YANG * CH4_C_FRAC_YANG * (16 / 12) * 0.6) * GWP_CH4_20 +
         (TN_YANG * N2O_N_FRAC_YANG * (44 / 28) * 0.6) * GWP_N2O_20) / 1000) := by
  have h1u0 : (0 : ℝ) ≤ 1 - u := by linarith
  have h1u : 1 - u ≤ 0.6 := by linarith
  have hterm : ∀ m ∈ Finset.range N,
      (ch4_vermi u residuos m * GWP_CH4_20 +
       n2o_vermi u residuos m * GWP_N2O_20) / 1000 ≤
      residuos *
        ((TOC_YANG * CH4_C_FRAC_YANG * (16 / 12) * 0.6) * GWP_CH4_20 +
         (TN_YANG * N2O_N_FRAC_YANG * (44 / 28) * 0.6) * GWP_N2O_20) / 1000 := by
    intro m hm
    have hPc := pathway_prefix_mem PERFIL_CH4_VERMI perfil_ch4_vermi_nonneg
      (by rw [perfil_ch4_vermi_sum]; norm_num) m
    have hPn := pathway_prefix_mem PERFIL_N2O_VERMI perfil_n2o_vermi_nonneg
      (by rw [perfil_n2o_vermi_sum]; norm_num) m
    have hch4 : ch4_vermi u residuos m ≤
        residuos * (TOC_YANG * CH4_C_FRAC_YANG * (16 / 12) * 0.6) := by
      unfold ch4_vermi
      refine spread_le_max hres ?_ ?_ hPc.1 hPc.2
      · refine mul_nonneg (by norm_num [TOC_YANG, CH4_C_FRAC_YANG]) h1u0
      · exact mul_le_mul_of_nonneg_left h1u
          (by norm_num [TOC_YANG, CH4_C_FRAC_YANG])
    have hn2o : n2o_vermi u residuos m ≤
        residuos * (TN_YANG * N2O_N_FRAC_YANG * (44 / 28) * 0.6) := by
      unfold n2o_vermi
      refine spread_le_max hres ?_ ?_ hPn.1 hPn.2
      · refine mul_nonneg (by norm_num [TN_YANG, N2O_N_FRAC_YANG]) h1u0
      · exact mul_le_mul_of_nonneg_left h1u
          (by norm_num [TN_YANG, N2O_N_FRAC_YANG])
    have hc1 := mul_le_mul_of_nonneg_right hch4
      (by norm_num [GWP_CH4_20] : (0 : ℝ) ≤ GWP_CH4_20)
    have hc2 := mul_le_mul_of_nonneg_right hn2o
      (by norm_num [GWP_N2O_20] : (0 : ℝ) ≤ GWP_N2O_20)
    linarith
  calc ∑ m ∈ Finset.range N,
        (ch4_vermi u residuos m * GWP_CH4_20 +
         n2o_vermi u residuos m * GWP_N2O_20) / 1000
      ≤ ∑ _m ∈ Finset.range N,
          residuos *
            ((TOC_YANG * CH4_C_FRAC_YANG * (16 / 12) * 0.6) * GWP_CH4_20 +
             (TN_YANG * N2O_N_FRAC_YANG * (44 / 28) * 0.6) * GWP_N2O_20) / 1000 :=
        Finset.sum_le_sum hterm
    _ = (N : ℝ) * (residuos *
          ((TOC_YANG * CH4_C_FRAC_YANG * (16 / 12) * 0.6) * GWP_CH4_20 +
           (TN_YANG * N2O_N_FRAC_YANG * (44 / 28) * 0.6) * GWP_N2O_20) / 1000) := by
        rw [Finset.sum_const, Finset.card_range, nsmul_eq_mul]

/-! ### Claim C7 -/

/-- Claim C7 counterexample: at the in-range parameters moisture 0.40,
temperature 15 °C, DOC 0.10 with 100 kg/day and a 1-day horizon, the
first-day vermicomposting CO2eq exceeds the landfill's (whose decay
kernel has barely started releasing), so the avoided total is negative. -/
theorem sinal_evitadas_counter :
    executar_simulacao_completa 0.40 15 0.10 1 100 100 8 < 0 := by
  have hfa : f_aberto 100 100 8 = 1 / 3 := by
    unfold f_aberto
    rw [max_eq_left (by norm_num), min_eq_left (by norm_num)]
    norm_num
  have hk : 1 - Real.exp (-k_ano * (((0 : ℕ) : ℝ) + 1) / 365) ≤ 6 / 36500 := by
    have harg : -k_ano * (((0 : ℕ) : ℝ) + 1) / 365 = -(6 / 36500) := by
      norm_num [k_ano]
    rw [harg]
    exact one_sub_exp_le _
  have hfod : ch4_aterro_fod 15 0.10 100 0 ≤ 100 * 0.03003 * (6 / 36500) := by
    rw [ch4_aterro_fod_eq]
    have hpot : potencial_CH4_por_kg 0.10 15 = 0.03003 := by
      norm_num [potencial_CH4_por_kg, DOCf_of, MCF, F, OX, Ri]
    rw [hpot]
    exact mul_le_mul_of_nonneg_left hk (by norm_num)
  have hn2o : total_n2o_aterro 0.40 15 0.10 100 100 8 0 ≤ 0.00096 := by
    unfold total_n2o_aterro emissao_diaria_N2O_aterro
    simp only [zero_add, Finset.sum_range_one]
    rw [hfa]
    norm_num [PERFIL_N2O, PERFIL_N2O_PRE_DESCARTE, N2O_pre_descarte_g_por_kg_dia]
  have hA : total_ch4_aterro 0.40 15 0.10 100 100 8 0 * GWP_CH4_20 +
      total_n2o_aterro 0.40 15 0.10 100 100 8 0 * GWP_N2O_20 ≤ 0.31 := by
    unfold total_ch4_aterro
    have hpre : (100 : ℝ) * CH4_pre_descarte_g_por_kg_dia / 1000 = 8.896e-6 := by
      norm_num [CH4_pre_descarte_g_por_kg_dia]
    rw [hpre]
    norm_num [GWP_CH4_20, GWP_N2O_20]
    nlinarith [hfod, hn2o]
  have hV : (0.40 : ℝ) ≤ ch4_vermi 0.40 100 0 * GWP_CH4_20 +
      n2o_vermi 0.40 100 0 * GWP_N2O_20 := by
    unfold ch4_vermi n2o_vermi
    simp only [zero_add, Finset.sum_range_one]
    rw [perfil_ch4_vermi_sum, perfil_n2o_vermi_sum]
    norm_num [PERFIL_CH4_VERMI, PERFIL_N2O_VERMI, TOC_YANG, CH4_C_FRAC_YANG,
      TN_YANG, N2O_N_FRAC_YANG, GWP_CH4_20, GWP_N2O_20]
  unfold executar_simulacao_completa
  simp only [Finset.sum_range_one]
  linarith [hA, hV]

/-- Claim C7 amended: over the claim's parameter ranges the landfill
cumulative CO2eq dominates both treatment pathways once the horizon is
at least 1825 days (5 years, the smallest horizon the app can request:
`anos_simulacao` starts at 5); for short horizons the inequality fails,
as the counterexample at a 1-day horizon shows. -/
theorem sinal_evitadas_horizonte_longo :
    ∀ (u T doc residuos massa h : ℝ) (dias : ℕ),
      0.40 ≤ u → u ≤ 0.95 → 15 ≤ T → T ≤ 45 → 0.10 ≤ doc → doc ≤ 0.30 →
      0 < residuos → 1825 ≤ dias →
      0 ≤ executar_simulacao_completa u T doc dias residuos massa h ∧
      0 ≤ executar_simulacao_unfccc u T doc dias residuos massa h := by
  intro u T doc residuos massa h dias hu0 hu95 hT1 hT2 hd1 hd2 hres hdias
  have hres' : 0 ≤ residuos := hres.le
  have hu1 : u ≤ 1 := by linarith
  have hL := aterro_tco2eq_lb u T doc residuos massa h dias hu1 hT1 hd1 hres' hdias
  have hN0 : (0 : ℝ) ≤ (dias : ℝ) := Nat.cast_nonneg _
  have hRN : 0 ≤ residuos * (dias : ℝ) := mul_nonneg hres' hN0
  constructor
  · have hV := vermi_tco2eq_ub u residuos dias hu0 hu1 hres'
    have hnum : (dias : ℝ) * (residuos *
          ((TOC_YANG * CH4_C_FRAC_YANG * (16 / 12) * 0.6) * GWP_CH4_20 +
           (TN_YANG * N2O_N_FRAC_YANG * (44 / 28) * 0.6) * GWP_N2O_20) / 1000) ≤
        residuos * (0.03003 * GWP_CH4_20 / 1000) * ((dias : ℝ) / 10) := by
      norm_num [TOC_YANG, CH4_C_FRAC_YANG, TN_YANG, N2O_N_FRAC_YANG,
        GWP_CH4_20, GWP_N2O_20]
      nlinarith [hRN]
    unfold executar_simulacao_completa
    linarith
  · have hC := compost_tco2eq_ub u residuos dias hu0 hu1 hres'
    have hnum : (dias : ℝ) * (residuos *
          ((TOC_YANG * CH4_C_FRAC_THERMO * (16 / 12) * 0.6) * GWP_CH4_20 +
           (TN_YANG * N2O_N_FRAC_THERMO * (44 / 28) * 0.6) * GWP_N2O_20) / 1000) ≤
        residuos * (0.03003 * GWP_CH4_20 / 1000) * ((dias : ℝ) / 10) := by
      norm_num [TOC_YANG, CH4_C_FRAC_THERMO, TN_YANG, N2O_N_FRAC_THERMO,
        GWP_CH4_20, GWP_N2O_20]
      nlinarith [hRN]
    unfold executar_simulacao_unfccc
    linarith

/-- Witness for the amended claim C7 at the app's default parameters and
its minimum 5-year horizon. -/
theorem sinal_evitadas_horizonte_longo_w :
    (0.40 : ℝ) ≤ 0.85 ∧ (0.85 : ℝ) ≤ 0.95 ∧ (15 : ℝ) ≤ 25 ∧ (25 : ℝ) ≤ 45 ∧
    (0.10 : ℝ) ≤ 0.15 ∧ (0.15 : ℝ) ≤ 0.30 ∧ (0 : ℝ) < 100 ∧ 1825 ≤ 1825 ∧
    (0 ≤ executar_simulacao_completa 0.85 25 0.15 1825 100 100 8 ∧
     0 ≤ executar_simulacao_unfccc 0.85 25 0.15 1825 100 100 8) :=
  ⟨by norm_num, by norm_num, by norm_num, by norm_num, by norm_num,
   by norm_num, by norm_num, le_rfl,
   sinal_evitadas_horizonte_longo 0.85 25 0.15 100 100 8 1825 (by norm_num)
     (by norm_num) (by norm_num) (by norm_num) (by norm_num) (by norm_num)
     (by norm_num) le_rfl⟩

end

end Tco2e
